import Mathlib

/-!
Verification of the A2A agent wrapper (`examples/gcp_agent_wrapper.py`).

The module embeds the data model and the two A2A endpoints of the wrapper
as pure Lean functions:

* `Env` models the process environment variables read at startup
  (`os.getenv`), each `none` when unset;
* `TaskRequest` / `TaskResponse` mirror the pydantic models, defaults
  included;
* `agent_discovery` mirrors the handler of `GET /.well-known/agent.json`;
* `execute_task` mirrors the handler of `POST /execute`, parameterised by
  the pluggable processing function (`process_task` is the reference
  placeholder).  A Python `HTTPException` raised by the handler is the
  `Except.error` branch of the result.
-/

namespace GcpAgentWrapper

/-- Process environment as seen through `os.getenv`: a field is `none`
when the variable is unset. -/
structure Env where
  AGENT_NAME : Option String := none
  AGENT_DESCRIPTION : Option String := none
  AGENT_CAPABILITIES : Option String := none
  AGENT_KEYWORDS : Option String := none
  API_KEY : Option String := none
  GCP_REGION : Option String := none
  K_SERVICE : Option String := none
  deriving DecidableEq

/-- `os.getenv(var, default)`: the variable's value when set, else the
default. -/
def getenvD (v : Option String) (d : String) : String := v.getD d

/-- `AGENT_NAME = os.getenv("AGENT_NAME", "gcp-adk-agent")`. -/
def AGENT_NAME (e : Env) : String := getenvD e.AGENT_NAME "gcp-adk-agent"

/-- `AGENT_DESCRIPTION = os.getenv("AGENT_DESCRIPTION", "ADK-based agent running in Google Cloud")`. -/
def AGENT_DESCRIPTION (e : Env) : String :=
  getenvD e.AGENT_DESCRIPTION "ADK-based agent running in Google Cloud"

/-- Python `s.split(",")`: split on every comma, keeping empty pieces. -/
def pySplitComma (s : String) : List String :=
  (s.toList.splitOn ',').map List.asString

/-- `AGENT_CAPABILITIES = os.getenv("AGENT_CAPABILITIES", "general,nlp,conversation").split(",")`. -/
def AGENT_CAPABILITIES (e : Env) : List String :=
  pySplitComma (getenvD e.AGENT_CAPABILITIES "general,nlp,conversation")

/-- `AGENT_KEYWORDS = os.getenv("AGENT_KEYWORDS", "chat,assistant,help").split(",")`. -/
def AGENT_KEYWORDS (e : Env) : List String :=
  pySplitComma (getenvD e.AGENT_KEYWORDS "chat,assistant,help")

/-- `API_KEY = os.getenv("API_KEY")` — optional, `None` when unset. -/
def API_KEY (e : Env) : Option String := e.API_KEY

/-- Opaque JSON-object payloads (`Dict[str, Any]`) are modelled as
association lists over string keys. -/
abbrev Payload : Type := List (String × String)

/-- Pydantic model `TaskRequest`, with the field defaults of the source. -/
structure TaskRequest where
  task : String
  user_id : Option String := some "anonymous"
  context : Option Payload := some ([] : List (String × String))
  metadata : Option Payload := some ([] : List (String × String))
  deriving DecidableEq

/-- Pydantic model `TaskResponse`, with the field defaults of the source. -/
structure TaskResponse where
  result : String
  agent : String
  status : String := "completed"
  metadata : Option Payload := some ([] : List (String × String))
  deriving DecidableEq

/-- FastAPI `HTTPException(status_code, detail)`. -/
structure HTTPException where
  status_code : Nat
  detail : String
  deriving DecidableEq

/-- The pluggable processing function `process_task(task, user_id, context)`:
returns the result text, or `Except.error msg` when it raises an exception
whose `str` is `msg`. -/
def ProcFn : Type := String → Option String → Payload → Except String String

/-- Python truthiness of the optional `API_KEY` string: falsy when unset
(`None`) or the empty string. -/
def truthy : Option String → Bool
  | none => false
  | some s => !(s == "")

/-- Python `request.context or {}`: the context dict when truthy
(non-empty), else the empty dict. -/
def pyOrEmpty : Option Payload → Payload
  | none => []
  | some c => if c.isEmpty then [] else c

/-- How `execute_task` maps the outcome of the processing call: a
`TaskResponse` on success, an HTTP 500 carrying the exception detail on
failure (the `except` clause). -/
def wrapOutcome (e : Env) : Except String String → Except HTTPException TaskResponse
  | Except.ok result =>
      Except.ok { result := result, agent := AGENT_NAME e, status := "completed",
                  metadata := some [("platform", "gcp"), ("service", "cloud-run"),
                                    ("region", getenvD e.GCP_REGION "unknown")] }
  | Except.error exc =>
      Except.error { status_code := 500, detail := "Task execution failed: " ++ exc }

/-- The `try`/`except` block of `execute_task`: invoke the processing
function on `(task, user_id, context or {})` and wrap its outcome. -/
def runProcess (proc : ProcFn) (e : Env) (request : TaskRequest) :
    Except HTTPException TaskResponse :=
  wrapOutcome e (proc request.task request.user_id (pyOrEmpty request.context))

/-- Handler of `POST /execute`: API-key gate
(`if API_KEY and x_api_key != API_KEY: raise HTTPException(401, ...)`),
then the processing call wrapped by `try`/`except`. -/
def execute_task (proc : ProcFn) (e : Env) (x_api_key : Option String)
    (request : TaskRequest) : Except HTTPException TaskResponse :=
  if truthy (API_KEY e) && (x_api_key != API_KEY e) then
    Except.error { status_code := 401, detail := "Invalid or missing API key" }
  else
    runProcess proc e request

/-- Reference placeholder `process_task`: logs and returns
`f"Processed by {AGENT_NAME}: {task}"`; never raises. -/
def process_task (e : Env) : ProcFn :=
  fun task _user_id _context =>
    Except.ok ("Processed by " ++ AGENT_NAME e ++ ": " ++ task)

/-- The `endpoints` object of the discovery document. -/
structure Endpoints where
  execute : String
  health : String
  metrics : String
  deriving DecidableEq

/-- The `contact` object of the discovery document. -/
structure Contact where
  platform : String
  region : String
  service : String
  deriving DecidableEq

/-- The `limits` object of the discovery document. -/
structure Limits where
  max_task_length : Nat
  timeout_seconds : Nat
  rate_limit : String
  deriving DecidableEq

/-- The discovery document returned by `GET /.well-known/agent.json`. -/
structure AgentDescriptor where
  name : String
  description : String
  version : String
  protocol : String
  capabilities : List String
  keywords : List String
  endpoints : Endpoints
  contact : Contact
  limits : Limits
  deriving DecidableEq

/-- Handler of `GET /.well-known/agent.json`: builds the descriptor from
process configuration; takes no credential and raises nothing. -/
def agent_discovery (e : Env) : AgentDescriptor :=
  { name := AGENT_NAME e
    description := AGENT_DESCRIPTION e
    version := "1.0.0"
    protocol := "a2a"
    capabilities := AGENT_CAPABILITIES e
    keywords := AGENT_KEYWORDS e
    endpoints := { execute := "/execute", health := "/health", metrics := "/metrics" }
    contact := { platform := "Google Cloud Platform",
                 region := getenvD e.GCP_REGION "us-central1",
                 service := getenvD e.K_SERVICE "cloud-run" }
    limits := { max_task_length := 10000, timeout_seconds := 30, rate_limit := "100/minute" } }

/-! Concrete sample values used to instantiate the theorems below. -/

/-- An environment with no `API_KEY` set (open mode). -/
def openEnv : Env := {}

/-- An environment with a non-empty `API_KEY`. -/
def lockedEnv : Env := { API_KEY := some "sekret" }

/-- An environment whose `API_KEY` is set but empty. -/
def emptyKeyEnv : Env := { API_KEY := some "" }

/-- A processing function that always succeeds. -/
def procOkFn : ProcFn := fun task _user_id _context => Except.ok ("ok:" ++ task)

/-- A processing function that always raises. -/
def procFailFn : ProcFn := fun _task _user_id _context => Except.error "boom"

/-- A request built with only the `task` field, all the other fields at
their pydantic defaults. -/
def sampleReq : TaskRequest := { task := "demo" }

/-- A request whose caller sent an explicit `"context": null`. -/
def noCtxReq : TaskRequest := { task := "demo", context := none }

/-! Helper lemmas shared by the claim theorems. -/

/-- A context dict supplied by the caller passes `or {}` unchanged (the
empty dict is falsy, but it is replaced by an equal empty dict). -/
theorem pyOrEmpty_some (c : Payload) : pyOrEmpty (some c) = c := by
  show (if c.isEmpty then ([] : Payload) else c) = c
  split
  · rename_i h
    rw [List.isEmpty_iff] at h
    exact h.symm
  · rfl

/-- The 401 raised by the API-key gate. -/
def err401 : HTTPException := { status_code := 401, detail := "Invalid or missing API key" }

/-- `execute_task` unfolded into its gate and its `try` block. -/
theorem execute_task_eq (proc : ProcFn) (e : Env) (x : Option String)
    (req : TaskRequest) :
    execute_task proc e x req =
      if truthy (API_KEY e) && (x != API_KEY e) then Except.error err401
      else runProcess proc e req := rfl

/-- Error responses produced by the `try` block always carry status 500. -/
theorem runProcess_error_status (proc : ProcFn) (e : Env) (req : TaskRequest)
    (err : HTTPException) (h : runProcess proc e req = Except.error err) :
    err.status_code = 500 := by
  unfold runProcess wrapOutcome at h
  split at h
  · exact absurd h (by simp)
  · cases h
    rfl

/-- C1: for every request, credential and processing function,
`execute_task` returns exactly one outcome — either one `TaskResponse` or
one `HTTPException`, never both and never neither. -/
theorem execute_task_exactly_one_outcome (proc : ProcFn) (e : Env)
    (x : Option String) (req : TaskRequest) :
    ((∃ resp, execute_task proc e x req = Except.ok resp) ∧
      ¬ ∃ err, execute_task proc e x req = Except.error err) ∨
    ((∃ err, execute_task proc e x req = Except.error err) ∧
      ¬ ∃ resp, execute_task proc e x req = Except.ok resp) := by
  cases h : execute_task proc e x req with
  | ok resp =>
      refine Or.inl ⟨⟨resp, rfl⟩, ?_⟩
      rintro ⟨err, herr⟩
      exact Except.noConfusion herr
  | error err =>
      refine Or.inr ⟨⟨err, rfl⟩, ?_⟩
      rintro ⟨resp, hresp⟩
      exact Except.noConfusion hresp

/-- C1 witness: the dichotomy at a concrete request. -/
theorem execute_task_exactly_one_outcome_witness :
    ((∃ resp, execute_task procOkFn openEnv none sampleReq = Except.ok resp) ∧
      ¬ ∃ err, execute_task procOkFn openEnv none sampleReq = Except.error err) ∨
    ((∃ err, execute_task procOkFn openEnv none sampleReq = Except.error err) ∧
      ¬ ∃ resp, execute_task procOkFn openEnv none sampleReq = Except.ok resp) :=
  execute_task_exactly_one_outcome procOkFn openEnv none sampleReq

/-- C2: with no secret configured every request is authorized; with a
non-empty secret, a missing or wrong `X-API-Key` always yields the 401
and the processing function is never invoked (the outcome is independent
of it); the API-key gate passes exactly when the presented key equals the
secret. -/
theorem execute_task_auth (proc proc2 : ProcFn) (e : Env) (k : String)
    (x : Option String) (req : TaskRequest) :
    (API_KEY e = none → execute_task proc e x req = runProcess proc e req) ∧
    (API_KEY e = some k → k ≠ "" → x ≠ some k →
        execute_task proc e x req = Except.error err401 ∧
        execute_task proc e x req = execute_task proc2 e x req) ∧
    (API_KEY e = some k → k ≠ "" →
        ((truthy (API_KEY e) && (x != API_KEY e)) = false ↔ x = some k)) := by
  refine ⟨?_, ?_, ?_⟩
  · intro h
    simp [execute_task, h, truthy]
  · intro h hk hx
    have hcond : (truthy (API_KEY e) && (x != API_KEY e)) = true := by
      simp [h, truthy, hk, hx]
    constructor
    · rw [execute_task_eq, hcond]
      simp
    · rw [execute_task_eq, execute_task_eq, hcond]
      simp
  · intro h hk
    simp [h, truthy, hk]

/-- C2 witness: a wrong key against a configured non-empty secret gets
the 401. -/
theorem execute_task_auth_witness :
    execute_task procFailFn lockedEnv (some "wrong") sampleReq = Except.error err401 :=
  ((execute_task_auth procFailFn procOkFn lockedEnv "sekret" (some "wrong")
      sampleReq).2.1 rfl (by decide) (by decide)).1

/-- C3: the code applies no timeout to the processing call — every error
`execute_task` can return carries status 401 or 500, so the advertised
Timeout outcome (`limits.timeout_seconds = 30` in the discovery document)
is unreachable. -/
theorem execute_task_has_no_timeout_outcome (proc : ProcFn) (e : Env)
    (x : Option String) (req : TaskRequest) (err : HTTPException)
    (h : execute_task proc e x req = Except.error err) :
    (err.status_code = 401 ∨ err.status_code = 500) ∧
    (agent_discovery e).limits.timeout_seconds = 30 := by
  refine ⟨?_, rfl⟩
  rw [execute_task_eq] at h
  split at h
  · cases h
    exact Or.inl rfl
  · exact Or.inr (runProcess_error_status proc e req err h)

/-- C3 witness: a failing processing call yields a 500 and the discovery
document still advertises a 30-second timeout. -/
theorem execute_task_has_no_timeout_outcome_witness :
    (((⟨500, "Task execution failed: boom"⟩ : HTTPException).status_code = 401 ∨
      ((⟨500, "Task execution failed: boom"⟩ : HTTPException)).status_code = 500) ∧
    (agent_discovery openEnv).limits.timeout_seconds = 30) :=
  execute_task_has_no_timeout_outcome procFailFn openEnv none sampleReq
    ⟨500, "Task execution failed: boom"⟩ rfl

/-- C4: when the processing function raises, the authorized caller gets
exactly the HTTP 500 carrying the exception detail — the failure is never
swallowed and never turned into a success. -/
theorem execute_task_processing_failure (proc : ProcFn) (e : Env)
    (x : Option String) (req : TaskRequest) (msg : String)
    (hauth : (truthy (API_KEY e) && (x != API_KEY e)) = false)
    (hproc : proc req.task req.user_id (pyOrEmpty req.context) = Except.error msg) :
    execute_task proc e x req =
      Except.error { status_code := 500, detail := "Task execution failed: " ++ msg } := by
  rw [execute_task_eq, hauth]
  simp [runProcess, hproc, wrapOutcome]

/-- C4 witness: the failing processing function surfaces its detail in a
500 response. -/
theorem execute_task_processing_failure_witness :
    execute_task procFailFn openEnv none sampleReq =
      Except.error { status_code := 500, detail := "Task execution failed: " ++ "boom" } :=
  execute_task_processing_failure procFailFn openEnv none sampleReq "boom" rfl rfl

/-- C5: when authorized processing succeeds with result `r`, the response
is a `TaskResponse` with `result = r`, `status = "completed"`, `agent` the
configured agent name (which is what the discovery document publishes as
`name`), and metadata carrying the platform and region tags. -/
theorem execute_task_success_shape (proc : ProcFn) (e : Env)
    (x : Option String) (req : TaskRequest) (r : String)
    (hauth : (truthy (API_KEY e) && (x != API_KEY e)) = false)
    (hproc : proc req.task req.user_id (pyOrEmpty req.context) = Except.ok r) :
    execute_task proc e x req =
      Except.ok { result := r, agent := AGENT_NAME e, status := "completed",
                  metadata := some [("platform", "gcp"), ("service", "cloud-run"),
                                    ("region", getenvD e.GCP_REGION "unknown")] } ∧
    (agent_discovery e).name = AGENT_NAME e := by
  refine ⟨?_, rfl⟩
  rw [execute_task_eq, hauth]
  simp [runProcess, hproc, wrapOutcome]

/-- C5 witness: a successful processing call at a concrete request. -/
theorem execute_task_success_shape_witness :
    execute_task procOkFn openEnv none sampleReq =
      Except.ok { result := "ok:" ++ "demo", agent := AGENT_NAME openEnv,
                  status := "completed",
                  metadata := some [("platform", "gcp"), ("service", "cloud-run"),
                                    ("region", getenvD openEnv.GCP_REGION "unknown")] } ∧
    (agent_discovery openEnv).name = AGENT_NAME openEnv :=
  execute_task_success_shape procOkFn openEnv none sampleReq ("ok:" ++ "demo") rfl rfl

/-- C6: discovery is a total pure function of the configuration — it
takes no credential, raises nothing, and always returns a descriptor with
`protocol = "a2a"`, `version = "1.0.0"` and every advertised field; with
an empty environment all the configuration defaults apply. -/
theorem agent_discovery_contract (e : Env) :
    (agent_discovery e).name = AGENT_NAME e ∧
    (agent_discovery e).description = AGENT_DESCRIPTION e ∧
    (agent_discovery e).version = "1.0.0" ∧
    (agent_discovery e).protocol = "a2a" ∧
    (agent_discovery e).capabilities = AGENT_CAPABILITIES e ∧
    (agent_discovery e).keywords = AGENT_KEYWORDS e ∧
    (agent_discovery e).endpoints =
      { execute := "/execute", health := "/health", metrics := "/metrics" } ∧
    (agent_discovery e).contact =
      { platform := "Google Cloud Platform",
        region := getenvD e.GCP_REGION "us-central1",
        service := getenvD e.K_SERVICE "cloud-run" } ∧
    (agent_discovery e).limits =
      { max_task_length := 10000, timeout_seconds := 30, rate_limit := "100/minute" } ∧
    agent_discovery {} =
      { name := "gcp-adk-agent",
        description := "ADK-based agent running in Google Cloud",
        version := "1.0.0",
        protocol := "a2a",
        capabilities := ["general", "nlp", "conversation"],
        keywords := ["chat", "assistant", "help"],
        endpoints := { execute := "/execute", health := "/health", metrics := "/metrics" },
        contact := { platform := "Google Cloud Platform", region := "us-central1",
                     service := "cloud-run" },
        limits := { max_task_length := 10000, timeout_seconds := 30,
                    rate_limit := "100/minute" } } := by
  refine ⟨rfl, rfl, rfl, rfl, rfl, rfl, rfl, rfl, rfl, ?_⟩
  decide

/-- C7: a request built with only the task gets `user_id = "anonymous"`;
the outcome never depends on the opaque `metadata` field; and when the
caller supplies a context dict, the processing function receives exactly
that dict. -/
theorem taskrequest_defaults_and_passthrough (proc : ProcFn) (e : Env)
    (x : Option String) (t : String) (req : TaskRequest)
    (ctx : Payload) (md : Option Payload)
    (hctx : req.context = some ctx)
    (hauth : (truthy (API_KEY e) && (x != API_KEY e)) = false) :
    ({ task := t } : TaskRequest).user_id = some "anonymous" ∧
    execute_task proc e x req = execute_task proc e x { req with metadata := md } ∧
    execute_task proc e x req = wrapOutcome e (proc req.task req.user_id ctx) := by
  refine ⟨rfl, rfl, ?_⟩
  rw [execute_task_eq, hauth]
  simp [runProcess, hctx, pyOrEmpty_some]

/-- C7 witness: the default `user_id` and the exact hand-over of a
supplied context at a concrete request. -/
theorem taskrequest_defaults_and_passthrough_witness :
    ({ task := "demo" } : TaskRequest).user_id = some "anonymous" ∧
    execute_task procOkFn openEnv none sampleReq =
      execute_task procOkFn openEnv none { sampleReq with metadata := some [("k", "v")] } ∧
    execute_task procOkFn openEnv none sampleReq =
      wrapOutcome openEnv (procOkFn sampleReq.task sampleReq.user_id []) :=
  taskrequest_defaults_and_passthrough procOkFn openEnv none "demo" sampleReq
    [] (some [("k", "v")]) rfl rfl

/-- C8: an `API_KEY` set to the empty string disables the credential
check entirely, and the 401 is reachable only when `API_KEY` is a
non-empty string that the presented key does not equal. -/
theorem empty_api_key_is_open_mode (proc : ProcFn) (e : Env)
    (x : Option String) (req : TaskRequest) :
    (API_KEY e = some "" → execute_task proc e x req = runProcess proc e req) ∧
    (execute_task proc e x req = Except.error err401 →
      ∃ k, API_KEY e = some k ∧ k ≠ "" ∧ x ≠ some k) := by
  constructor
  · intro h
    simp [execute_task, h, truthy]
  · intro h
    rw [execute_task_eq] at h
    by_cases hcond : (truthy (API_KEY e) && (x != API_KEY e)) = true
    · rcases hA : API_KEY e with _ | k
      · rw [hA] at hcond
        simp [truthy] at hcond
      · refine ⟨k, rfl, ?_, ?_⟩
        · intro hk
          rw [hA, hk] at hcond
          simp [truthy] at hcond
        · intro hx
          rw [hA, hx] at hcond
          simp at hcond
    · rw [Bool.not_eq_true] at hcond
      rw [hcond] at h
      simp only [Bool.false_eq_true, if_false] at h
      have := runProcess_error_status proc e req err401 h
      simp [err401] at this

/-- C8 witness: with an empty-string secret a mismatched key is still
authorized. -/
theorem empty_api_key_is_open_mode_witness :
    execute_task procOkFn emptyKeyEnv (some "whatever") sampleReq =
      runProcess procOkFn emptyKeyEnv sampleReq :=
  (empty_api_key_is_open_mode procOkFn emptyKeyEnv (some "whatever") sampleReq).1 rfl

/-- C9: an absent or null context is normalised by `or {}` — the
processing function always receives a dict, the empty one in both cases,
never `None`. -/
theorem null_context_becomes_empty (proc : ProcFn) (e : Env)
    (x : Option String) (req : TaskRequest)
    (hctx : req.context = none ∨ req.context = some [])
    (hauth : (truthy (API_KEY e) && (x != API_KEY e)) = false) :
    pyOrEmpty req.context = [] ∧
    execute_task proc e x req = wrapOutcome e (proc req.task req.user_id []) := by
  have hemp : pyOrEmpty req.context = [] := by
    rcases hctx with h | h <;> rw [h] <;> rfl
  refine ⟨hemp, ?_⟩
  rw [execute_task_eq, hauth]
  simp [runProcess, hemp]

/-- C9 witness: an explicit `"context": null` reaches the processing
function as the empty dict. -/
theorem null_context_becomes_empty_witness :
    pyOrEmpty noCtxReq.context = [] ∧
    execute_task procOkFn openEnv none noCtxReq =
      wrapOutcome openEnv (procOkFn noCtxReq.task noCtxReq.user_id []) :=
  null_context_becomes_empty procOkFn openEnv none noCtxReq (Or.inl rfl) rfl

/-- C10: with the reference placeholder processing function, every
authorized request succeeds with status `"completed"` and result exactly
`"Processed by <agent name>: <task>"`, which is never empty. -/
theorem placeholder_process_always_completes (e : Env) (x : Option String)
    (req : TaskRequest)
    (hauth : (truthy (API_KEY e) && (x != API_KEY e)) = false) :
    execute_task (process_task e) e x req =
      Except.ok { result := "Processed by " ++ AGENT_NAME e ++ ": " ++ req.task,
                  agent := AGENT_NAME e, status := "completed",
                  metadata := some [("platform", "gcp"), ("service", "cloud-run"),
                                    ("region", getenvD e.GCP_REGION "unknown")] } ∧
    ("Processed by " ++ AGENT_NAME e ++ ": " ++ req.task) ≠ "" := by
  constructor
  · rw [execute_task_eq, hauth]
    simp [runProcess, process_task, wrapOutcome]
  · intro hcon
    have hlen := congrArg String.length hcon
    simp [String.length_append] at hlen
    exact absurd hlen.1.1.1 (by decide)

/-- C10 witness: the placeholder response at a concrete request. -/
theorem placeholder_process_always_completes_witness :
    execute_task (process_task openEnv) openEnv none sampleReq =
      Except.ok { result := "Processed by " ++ AGENT_NAME openEnv ++ ": " ++ sampleReq.task,
                  agent := AGENT_NAME openEnv, status := "completed",
                  metadata := some [("platform", "gcp"), ("service", "cloud-run"),
                                    ("region", getenvD openEnv.GCP_REGION "unknown")] } ∧
    ("Processed by " ++ AGENT_NAME openEnv ++ ": " ++ sampleReq.task) ≠ "" :=
  placeholder_process_always_completes openEnv none sampleReq rfl

end GcpAgentWrapper
